import Mathlib

/-
  Verification of the core logic of rtvsm.py (a TV/movie file renamer):
  pattern-based season/episode detection, template rendering with fallback,
  season-folder placement, and the batch file mover.

  The Python source is shallowly embedded: regular-expression searches are
  translated into explicit scanners over character lists (with the leftmost
  match semantics of Python re.search for the specific patterns used by the
  program), str.format is modelled by a small interpreter covering the
  placeholder forms the program uses, and the stateful batch mover becomes a
  fold over an explicit state with an environment supplying operator prompt
  answers and filesystem failures.
-/

/-- Python regex class \s restricted to ASCII whitespace (the filenames the
program handles); used by the patterns containing \s*. -/
def isPySpace (c : Char) : Bool :=
  c = ' ' || c = '\t' || c = '\n' || c = '\r' || c = '\x0b' || c = '\x0c'

/-- Maximal run of decimal digits at the head of the list, with the rest:
the greedy (\d+) of the embedded patterns. -/
def takeDigits : List Char → List Char × List Char
  | [] => ([], [])
  | c :: cs =>
    if c.isDigit then
      let (d, r) := takeDigits cs
      (c :: d, r)
    else ([], c :: cs)

/-- Numeric value of a digit run: Python int() on the captured group. -/
def natOfDigits (ds : List Char) : Nat :=
  ds.foldl (fun a c => a * 10 + (c.toNat - '0'.toNat)) 0

/-- Skip \s* (greedy). -/
def skipWs (cs : List Char) : List Char :=
  cs.dropWhile isPySpace

/-- Match a literal character sequence, returning the remainder. -/
def stripLit : List Char → List Char → Option (List Char)
  | [], cs => some cs
  | _ :: _, [] => none
  | l :: ls, c :: cs => if c = l then stripLit ls cs else none

/-- Python format "%02d": zero-pad to at least two digits, no truncation. -/
def pad2 (n : Nat) : String :=
  if n < 10 then "0" ++ toString n else toString n

/-! ## Regex searchers

Each Python pattern used by the program is embedded as an at-position matcher
plus a left-to-right scan, reproducing re.search's leftmost-match semantics.
In every pattern the digit groups are greedy and delimited by non-digit
characters, so greedy maximal-run matching is exact (no backtracking can
produce a different capture). -/

/-- At-position matcher for r'[Ss](\d+)[Ee](\d+)' (pattern "S01E01"). -/
def seAt (cs : List Char) : Option (Nat × Nat) :=
  match cs with
  | c :: rest =>
    if c = 'S' ∨ c = 's' then
      match takeDigits rest with
      | ([], _) => none
      | (d1, r1) =>
        match r1 with
        | e :: r2 =>
          if e = 'E' ∨ e = 'e' then
            match takeDigits r2 with
            | ([], _) => none
            | (d2, _) => some (natOfDigits d1, natOfDigits d2)
          else none
        | [] => none
    else none
  | [] => none

/-- re.search for r'[Ss](\d+)[Ee](\d+)'. -/
def searchSE : List Char → Option (Nat × Nat)
  | [] => none
  | c :: cs =>
    match seAt (c :: cs) with
    | some r => some r
    | none => searchSE cs

/-- At-position matcher for r'(\d+)x(\d+)' (pattern "1x01"; lowercase x). -/
def nxAt (cs : List Char) : Option (Nat × Nat) :=
  match takeDigits cs with
  | ([], _) => none
  | (d1, r1) =>
    match r1 with
    | 'x' :: r2 =>
      match takeDigits r2 with
      | ([], _) => none
      | (d2, _) => some (natOfDigits d1, natOfDigits d2)
    | _ => none

/-- re.search for r'(\d+)x(\d+)'. -/
def searchNx : List Char → Option (Nat × Nat)
  | [] => none
  | c :: cs =>
    match nxAt (c :: cs) with
    | some r => some r
    | none => searchNx cs

/-- At-position matcher for r'[Ee](\d+)' (pattern "E01"). -/
def eAt (cs : List Char) : Option Nat :=
  match cs with
  | c :: rest =>
    if c = 'E' ∨ c = 'e' then
      match takeDigits rest with
      | ([], _) => none
      | (d, _) => some (natOfDigits d)
    else none
  | [] => none

/-- re.search for r'[Ee](\d+)'. -/
def searchE : List Char → Option Nat
  | [] => none
  | c :: cs =>
    match eAt (c :: cs) with
    | some r => some r
    | none => searchE cs

/-- At-position matcher for r'[Ee]pisode\s*(\d+)' (pattern "Episode 01"). -/
def episodeWordAt (cs : List Char) : Option Nat :=
  match cs with
  | c :: rest =>
    if c = 'E' ∨ c = 'e' then
      match stripLit ['p', 'i', 's', 'o', 'd', 'e'] rest with
      | none => none
      | some r1 =>
        match takeDigits (skipWs r1) with
        | ([], _) => none
        | (d, _) => some (natOfDigits d)
    else none
  | [] => none

/-- re.search for r'[Ee]pisode\s*(\d+)'. -/
def searchEpisodeWord : List Char → Option Nat
  | [] => none
  | c :: cs =>
    match episodeWordAt (c :: cs) with
    | some r => some r
    | none => searchEpisodeWord cs

/-- re.search for the last-resort single-season pattern r'.*?(\d+)': the lazy
prefix combined with position-by-position search yields the first maximal run
of digits in the string. -/
def firstDigitRun : List Char → Option Nat
  | [] => none
  | c :: cs =>
    if c.isDigit then some (natOfDigits (c :: (takeDigits cs).1))
    else firstDigitRun cs

/-- Head match for "[Tt]emporada\s*(\d+)": season number and remainder. -/
def temporadaNumAt (cs : List Char) : Option (Nat × List Char) :=
  match cs with
  | c :: rest =>
    if c = 'T' ∨ c = 't' then
      match stripLit ['e', 'm', 'p', 'o', 'r', 'a', 'd', 'a'] rest with
      | none => none
      | some r1 =>
        match takeDigits (skipWs r1) with
        | ([], _) => none
        | (d, r2) => some (natOfDigits d, r2)
    else none
  | [] => none

/-- At-position matcher for "[Ee]pisodio\s*(\d+)". -/
def episodioAt (cs : List Char) : Option Nat :=
  match cs with
  | c :: rest =>
    if c = 'E' ∨ c = 'e' then
      match stripLit ['p', 'i', 's', 'o', 'd', 'i', 'o'] rest with
      | none => none
      | some r1 =>
        match takeDigits (skipWs r1) with
        | ([], _) => none
        | (d, _) => some (natOfDigits d)
    else none
  | [] => none

/-- Scan for "[Ee]pisodio\s*(\d+)" (the suffix of auto pattern 3 after the lazy gap). -/
def searchEpisodio : List Char → Option Nat
  | [] => none
  | c :: cs =>
    match episodioAt (c :: cs) with
    | some r => some r
    | none => searchEpisodio cs

/-- At-position matcher for "[Ee]p\s*(\d+)". -/
def epShortAt (cs : List Char) : Option Nat :=
  match cs with
  | c :: rest =>
    if c = 'E' ∨ c = 'e' then
      match rest with
      | 'p' :: r1 =>
        match takeDigits (skipWs r1) with
        | ([], _) => none
        | (d, _) => some (natOfDigits d)
      | _ => none
    else none
  | [] => none

/-- Scan for "[Ee]p\s*(\d+)" (the suffix of auto pattern 4 after the lazy gap). -/
def searchEpShort : List Char → Option Nat
  | [] => none
  | c :: cs =>
    match epShortAt (c :: cs) with
    | some r => some r
    | none => searchEpShort cs

/-- re.search for r'[Tt]emporada\s*(\d+).*?[Ee]pisodio\s*(\d+)': leftmost
"Temporada N" whose remainder contains "Episodio M"; the lazy gap makes the
episode capture the leftmost later occurrence. -/
def searchTempEpisodio : List Char → Option (Nat × Nat)
  | [] => none
  | c :: cs =>
    match
      (match temporadaNumAt (c :: cs) with
       | some (s, rest) =>
         match searchEpisodio rest with
         | some e => some (s, e)
         | none => none
       | none => none) with
    | some r => some r
    | none => searchTempEpisodio cs

/-- re.search for r'[Tt]emporada\s*(\d+).*?[Ee]p\s*(\d+)'. -/
def searchTempEp : List Char → Option (Nat × Nat)
  | [] => none
  | c :: cs =>
    match
      (match temporadaNumAt (c :: cs) with
       | some (s, rest) =>
         match searchEpShort rest with
         | some e => some (s, e)
         | none => none
       | none => none) with
    | some r => some r
    | none => searchTempEp cs

/-- At-position matcher for r'[Tt](\d+)[Ee](\d+)' (pattern "T1E01"). -/
def teAt (cs : List Char) : Option (Nat × Nat) :=
  match cs with
  | c :: rest =>
    if c = 'T' ∨ c = 't' then
      match takeDigits rest with
      | ([], _) => none
      | (d1, r1) =>
        match r1 with
        | e :: r2 =>
          if e = 'E' ∨ e = 'e' then
            match takeDigits r2 with
            | ([], _) => none
            | (d2, _) => some (natOfDigits d1, natOfDigits d2)
          else none
        | [] => none
    else none
  | [] => none

/-- re.search for r'[Tt](\d+)[Ee](\d+)'. -/
def searchTE : List Char → Option (Nat × Nat)
  | [] => none
  | c :: cs =>
    match teAt (c :: cs) with
    | some r => some r
    | none => searchTE cs

/-- re.search for r'.*?(\d)[.](\d+)' ("Serie.1.01" style): the first position
holding a single digit followed by a literal dot and a digit run. -/
def searchDotSE : List Char → Option (Nat × Nat)
  | [] => none
  | c :: cs =>
    match
      (match cs with
       | '.' :: d :: rest =>
         if c.isDigit ∧ d.isDigit then
           some (c.toNat - '0'.toNat, natOfDigits (d :: (takeDigits rest).1))
         else none
       | _ => none) with
    | some r => some r
    | none => searchDotSE cs

/-- At-position matcher for "[Ss]eason\s*(\d+)". -/
def seasonWordAt (cs : List Char) : Option Nat :=
  match cs with
  | c :: rest =>
    if c = 'S' ∨ c = 's' then
      match stripLit ['e', 'a', 's', 'o', 'n'] rest with
      | none => none
      | some r1 =>
        match takeDigits (skipWs r1) with
        | ([], _) => none
        | (d, _) => some (natOfDigits d)
    else none
  | [] => none

/-- At-position matcher for "[Ss](\d+)". -/
def sNumAt (cs : List Char) : Option Nat :=
  match cs with
  | c :: rest =>
    if c = 'S' ∨ c = 's' then
      match takeDigits rest with
      | ([], _) => none
      | (d, _) => some (natOfDigits d)
    else none
  | [] => none

/-- At-position matcher for "[Tt](\d+)". -/
def tNumAt (cs : List Char) : Option Nat :=
  match cs with
  | c :: rest =>
    if c = 'T' ∨ c = 't' then
      match takeDigits rest with
      | ([], _) => none
      | (d, _) => some (natOfDigits d)
    else none
  | [] => none

/-- re.search for the directory-name season pattern
r'[Ss]eason\s*(\d+)|[Tt]emporada\s*(\d+)|[Ss](\d+)|[Tt](\d+)'; the program
then takes the first non-empty capture group, which is the number captured by
whichever alternative matched. Alternatives are tried in order at each
position, leftmost position first. -/
def searchSeasonDir : List Char → Option Nat
  | [] => none
  | c :: cs =>
    match seasonWordAt (c :: cs) with
    | some r => some r
    | none =>
      match
        (match temporadaNumAt (c :: cs) with
         | some (s, _) => some s
         | none => none) with
      | some r => some r
      | none =>
        match sNumAt (c :: cs) with
        | some r => some r
        | none =>
          match tNumAt (c :: cs) with
          | some r => some r
          | none => searchSeasonDir cs

/-- re.search for the filename episode pattern
r'[Ee](\d+)|[Ee]pisode\s*(\d+)|[Ee]p\s*(\d+)|(\d+)'; the program takes the
first non-empty capture group. -/
def searchEpAlt : List Char → Option Nat
  | [] => none
  | c :: cs =>
    match eAt (c :: cs) with
    | some r => some r
    | none =>
      match episodeWordAt (c :: cs) with
      | some r => some r
      | none =>
        match epShortAt (c :: cs) with
        | some r => some r
        | none =>
          if c.isDigit then some (natOfDigits (c :: (takeDigits cs).1))
          else searchEpAlt cs

/-- At-position matcher for the case-sensitive r'S(\d+)E(\d+)' used on the
rendered filename when routing into season folders. -/
def seUpperAt (cs : List Char) : Option (Nat × Nat) :=
  match cs with
  | 'S' :: rest =>
    match takeDigits rest with
    | ([], _) => none
    | (d1, r1) =>
      match r1 with
      | 'E' :: r2 =>
        match takeDigits r2 with
        | ([], _) => none
        | (d2, _) => some (natOfDigits d1, natOfDigits d2)
      | _ => none
  | _ => none

/-- re.search for the case-sensitive r'S(\d+)E(\d+)'. -/
def searchSEupper : List Char → Option (Nat × Nat)
  | [] => none
  | c :: cs =>
    match seUpperAt (c :: cs) with
    | some r => some r
    | none => searchSEupper cs

/-! ## Model of Python str.format

The program calls str.format with keyword arguments only. The model covers
the placeholder forms reachable from the program's configuration surface
(named fields, optional !s/!r/!a conversion, format specs of shape
[0][width][d|s]) and classifies failures the way CPython does on them:
unknown keyword name raises KeyError, empty/numeric field names raise
IndexError (no positional arguments are passed), malformed braces and
unsupported specs raise ValueError, attribute/index access on a bound value
raises a non-Key error. Only the KeyError class is caught by the program. -/

inductive PyVal
  | pstr (s : String)
  | pint (n : Nat)
deriving DecidableEq

inductive FmtErr
  | keyError (name : String)
  | indexError
  | valueError
  | otherError
deriving DecidableEq

instance {ε α : Type} [DecidableEq ε] [DecidableEq α] : DecidableEq (Except ε α) := by
  intro a b
  cases a <;> cases b
  case ok.ok x y =>
    exact if h : x = y then .isTrue (by rw [h]) else .isFalse (by intro he; cases he; exact h rfl)
  case error.error x y =>
    exact if h : x = y then .isTrue (by rw [h]) else .isFalse (by intro he; cases he; exact h rfl)
  case ok.error x y => exact .isFalse (by intro he; cases he)
  case error.ok x y => exact .isFalse (by intro he; cases he)

/-- str() of a value. -/
def pyValStr : PyVal → String
  | .pstr s => s
  | .pint n => toString n

/-- repr() of a value (escaping inside the string is not modelled; the
program never formats with !r). -/
def pyValRepr : PyVal → String
  | .pstr s => "'" ++ s ++ "'"
  | .pint n => toString n

/-- Left-pad with the given fill character up to the width (numeric default
right alignment). -/
def padLeftFill (fill : Char) (width : Nat) (s : String) : String :=
  if s.length < width then String.mk (List.replicate (width - s.length) fill) ++ s else s

/-- Right-pad with spaces up to the width (string default left alignment). -/
def padRightSpaces (width : Nat) (s : String) : String :=
  if s.length < width then s ++ String.mk (List.replicate (width - s.length) ' ') else s

/-- Apply a format spec to a value: supports the empty spec, an optional
leading zero-fill flag, a width, and a final presentation type d (for ints)
or s (for strings); everything else raises ValueError, as CPython does for
an invalid spec on these value types. -/
def applySpec (v : PyVal) (spec : List Char) : Except FmtErr String :=
  if spec = [] then .ok (pyValStr v) else
  if spec.any (fun c => c = '\x7b' ∨ c = '\x7d') then .error .valueError else
  let zp : Bool × List Char :=
    match spec with
    | '0' :: r => (true, r)
    | r => (false, r)
  match takeDigits zp.2 with
  | (wds, rest) =>
    let width := natOfDigits wds
    match v, rest with
    | .pint n, [] => .ok (padLeftFill (if zp.1 then '0' else ' ') width (toString n))
    | .pint n, ['d'] => .ok (padLeftFill (if zp.1 then '0' else ' ') width (toString n))
    | .pstr s, [] => if zp.1 then .error .valueError else .ok (padRightSpaces width s)
    | .pstr s, ['s'] => if zp.1 then .error .valueError else .ok (padRightSpaces width s)
    | _, _ => .error .valueError

/-- Look up a keyword argument. -/
def lookupArg (args : List (String × PyVal)) (n : String) : Option PyVal :=
  match args.find? (fun p => p.1 = n) with
  | some p => some p.2
  | none => none

/-- Resolve a field name against the keyword arguments, with CPython's error
classes: auto/positional fields raise IndexError (no positional arguments),
unknown first components raise KeyError, attribute or index access on a
bound value is a non-Key error. -/
def fieldValue (args : List (String × PyVal)) (name : List Char) : Except FmtErr PyVal :=
  if name = [] ∨ name.all Char.isDigit then .error .indexError
  else if name.any (fun c => c = '.' ∨ c = '[') then
    let base := name.takeWhile (fun c => ¬(c = '.' ∨ c = '['))
    match lookupArg args (String.mk base) with
    | none => .error (.keyError (String.mk base))
    | some _ => .error .otherError
  else
    match lookupArg args (String.mk name) with
    | none => .error (.keyError (String.mk name))
    | some v => .ok v

/-- Apply a !s / !r / !a conversion; any other conversion character raises
ValueError. -/
def applyConv (conv : Char) (v : PyVal) : Except FmtErr PyVal :=
  if conv = 's' then .ok (.pstr (pyValStr v))
  else if conv = 'r' ∨ conv = 'a' then .ok (.pstr (pyValRepr v))
  else .error .valueError

/-- Read characters until one of the stop characters, returning the prefix,
the stop character and the remainder. -/
def readUntil (stops : List Char) : List Char → Option (List Char × Char × List Char)
  | [] => none
  | c :: cs =>
    if c ∈ stops then some ([], c, cs)
    else
      match readUntil stops cs with
      | some (pre, stop, rest) => some (c :: pre, stop, rest)
      | none => none

/-- Render a single replacement field (the part after an opening brace). -/
def renderField (args : List (String × PyVal)) (cs : List Char) :
    Except FmtErr (String × List Char) :=
  match readUntil ['!', ':', '\x7d'] cs with
  | none => .error .valueError
  | some (name, stop, r1) =>
    match fieldValue args name with
    | .error e => .error e
    | .ok v0 =>
      if stop = '\x7d' then
        match applySpec v0 [] with
        | .error e => .error e
        | .ok s => .ok (s, r1)
      else
        let afterConv : Except FmtErr (PyVal × Char × List Char) :=
          if stop = '!' then
            match r1 with
            | conv :: d :: r2 =>
              if d = ':' ∨ d = '\x7d' then
                match applyConv conv v0 with
                | .error e => .error e
                | .ok v1 => .ok (v1, d, r2)
              else .error .valueError
            | _ => .error .valueError
          else .ok (v0, stop, r1)
        match afterConv with
        | .error e => .error e
        | .ok (v1, d, r2) =>
          if d = '\x7d' then
            match applySpec v1 [] with
            | .error e => .error e
            | .ok s => .ok (s, r2)
          else
            match readUntil ['\x7d'] r2 with
            | none => .error .valueError
            | some (spec, _, r3) =>
              match applySpec v1 spec with
              | .error e => .error e
              | .ok s => .ok (s, r3)

/-- Fuel-indexed worker for the format interpreter; each step consumes at
least one input character, so fuel equal to the input length suffices. -/
def pyFormatAux (args : List (String × PyVal)) : Nat → List Char → Except FmtErr String
  | _, [] => .ok ""
  | 0, _ :: _ => .error .otherError
  | fuel + 1, cs =>
    match cs with
    | [] => .ok ""
    | '\x7b' :: '\x7b' :: rest =>
      match pyFormatAux args fuel rest with
      | .ok s => .ok ("\x7b" ++ s)
      | .error e => .error e
    | '\x7d' :: '\x7d' :: rest =>
      match pyFormatAux args fuel rest with
      | .ok s => .ok ("\x7d" ++ s)
      | .error e => .error e
    | '\x7d' :: _ => .error .valueError
    | '\x7b' :: rest =>
      match renderField args rest with
      | .error e => .error e
      | .ok (s, r2) =>
        match pyFormatAux args fuel r2 with
        | .ok s2 => .ok (s ++ s2)
        | .error e => .error e
    | c :: rest =>
      match pyFormatAux args fuel rest with
      | .ok s => .ok (String.mk [c] ++ s)
      | .error e => .error e

/-- Model of template.format(**kwargs) for the program's keyword calls. -/
def pyFormat (args : List (String × PyVal)) (template : String) : Except FmtErr String :=
  pyFormatAux args template.data.length template.data

/-- format_str.format(title=..., season=..., episode=..., episode_title=...)
as called at src/rtvsm.py:1366 and :1454. -/
def formatTv (fmt title : String) (season episode : Nat) (episodeTitle : String) :
    Except FmtErr String :=
  pyFormat [("title", .pstr title), ("season", .pint season),
            ("episode", .pint episode), ("episode_title", .pstr episodeTitle)] fmt

/-- format_str.format(title=..., year=...) as called at src/rtvsm.py:1486;
the year is the string release_date[:4]. -/
def formatMovie (fmt title year : String) : Except FmtErr String :=
  pyFormat [("title", .pstr title), ("year", .pstr year)] fmt

/-! ## Configuration and filename generation -/

/-- The configuration surface consumed by the renaming core
(src/rtvsm.py:673-690): one template index per media type, the organize
flag for movies, and the fixed ordered template lists. -/
structure Config where
  tvFormat : Nat
  movieFormat : Nat
  organizeMovies : Bool
  tvFormats : List String
  movieFormats : List String
deriving DecidableEq

/-- The default configuration of the program (src/rtvsm.py:673-690). -/
def defaultConfig : Config where
  tvFormat := 0
  movieFormat := 0
  organizeMovies := true
  tvFormats :=
    ["\x7btitle\x7d S\x7bseason:02d\x7dE\x7bepisode:02d\x7d",
     "\x7btitle\x7d S\x7bseason:02d\x7dE\x7bepisode:02d\x7d \x7bepisode_title\x7d",
     "\x7btitle\x7d - \x7bseason\x7dx\x7bepisode:02d\x7d",
     "\x7btitle\x7d - Temporada \x7bseason\x7d Episodio \x7bepisode:02d\x7d"]
  movieFormats :=
    ["\x7btitle\x7d (\x7byear\x7d)",
     "\x7btitle\x7d [\x7byear\x7d]",
     "\x7btitle\x7d \x7byear\x7d",
     "\x7btitle\x7d - \x7byear\x7d"]

/-- str.split on a dot, mirroring Python: the empty string yields one empty
piece, and every dot starts a new piece. -/
def splitOnDot : List Char → List (List Char)
  | [] => [[]]
  | c :: cs =>
    let r := splitOnDot cs
    if c = '.' then [] :: r
    else
      match r with
      | h :: t => (c :: h) :: t
      | [] => [[c]]

/-- Last element of a piece list (never empty for splitOnDot). -/
def lastPiece : List (List Char) → List Char
  | [] => []
  | [x] => x
  | _ :: y :: t => lastPiece (y :: t)

/-- file_name.split and taking the last piece: the extension used verbatim
(the whole name when it has no dot). -/
def lastExt (fileName : String) : String :=
  String.mk (lastPiece (splitOnDot fileName.data))

/-- First-key association lookup, modelling a Python dict read (d.get /
membership); the program's dicts have unique keys. -/
def dictGet {α : Type} (d : List (Nat × α)) (k : Nat) : Option α :=
  match d.find? (fun p => p.1 = k) with
  | some p => some p.2
  | none => none

/-- The literal fallback TV name built by the except branch
(src/rtvsm.py:1374-1376 and :1462-1464). -/
def tvCanonical (title : String) (season episode : Nat) (episodeTitle : String) : String :=
  let base := title ++ " S" ++ pad2 season ++ "E" ++ pad2 episode
  if episodeTitle = "" then base else base ++ " " ++ episodeTitle

/-- The shared TV render-with-fallback block (src/rtvsm.py:1360-1376,
duplicated verbatim at :1448-1464): look up the configured template (a bad
index raises IndexError), try str.format, and on KeyError only fall back to
the canonical form. Other exceptions propagate. -/
def tvRenderPart (cfg : Config) (title : String) (season episode : Nat)
    (episodeTitle : String) : Except FmtErr String :=
  match cfg.tvFormats.get? cfg.tvFormat with
  | none => .error .indexError
  | some fmt =>
    match formatTv fmt title season episode episodeTitle with
    | .ok s => .ok s
    | .error (.keyError _) => .ok (tvCanonical title season episode episodeTitle)
    | .error e => .error e

/-- TMDBRenamer.generate_tv_filename (src/rtvsm.py:1328-1382), single-season
mode with return_episode=True: the pair is (new name, detected episode).
The ordered pattern cascade is unrolled with the source's group dispatch:
two-group patterns use group 2, one-group patterns group 1. -/
def extractEpisodeSingle (cs : List Char) : Option Nat :=
  match searchSE cs with
  | some r => some r.2
  | none =>
    match searchNx cs with
    | some r => some r.2
    | none =>
      match searchE cs with
      | some e => some e
      | none =>
        match searchEpisodeWord cs with
        | some e => some e
        | none => firstDigitRun cs

/-- generate_tv_filename itself. episodesInfo is self.episodes_info, the
episode-number-to-title dict for the selected season. -/
def generate_tv_filename (cfg : Config) (episodesInfo : List (Nat × String))
    (fileName seriesTitle : String) (seasonNumber : Nat) :
    Except FmtErr (String × Option Nat) :=
  match extractEpisodeSingle fileName.data with
  | none =>
    .ok (seriesTitle ++ " S" ++ pad2 seasonNumber ++ "EXX." ++ lastExt fileName, none)
  | some ep =>
    let episodeTitle := (dictGet episodesInfo ep).getD ""
    match tvRenderPart cfg seriesTitle seasonNumber ep episodeTitle with
    | .ok namePart => .ok (namePart ++ "." ++ lastExt fileName, some ep)
    | .error e => .error e

/-- The auto-detect pattern cascade (src/rtvsm.py:1389-1410): six patterns
tried in order on the filename, first match setting both season and episode.
The int conversions in the source cannot fail on digit captures, so the
try/except around them never skips a matched pattern. -/
def detectAutoPatterns (cs : List Char) : Option (Nat × Nat) :=
  match searchSE cs with
  | some r => some r
  | none =>
    match searchNx cs with
    | some r => some r
    | none =>
      match searchTempEpisodio cs with
      | some r => some r
      | none =>
        match searchTempEp cs with
        | some r => some r
        | none =>
          match searchTE cs with
          | some r => some r
          | none => searchDotSE cs

/-- Full auto-detect resolution (src/rtvsm.py:1398-1435): the filename
cascade, then the parent-directory season fallback combined with a bare
episode search in the filename; both numbers are required. -/
def detectAuto (fileName dirName : List Char) : Option (Nat × Nat) :=
  match detectAutoPatterns fileName with
  | some r => some r
  | none =>
    match searchSeasonDir dirName with
    | none => none
    | some s =>
      match searchEpAlt fileName with
      | none => none
      | some e => some (s, e)

/-- TMDBRenamer.generate_tv_filename_auto_season (src/rtvsm.py:1384-1472)
with return_numbers=True. The parentDir argument is the basename of the
file's containing directory; allSeasonsInfo is self.all_seasons_info, the
season-number-to-episode-dict mapping. -/
def generate_tv_filename_auto_season (cfg : Config)
    (allSeasonsInfo : List (Nat × List (Nat × String)))
    (parentDir fileName seriesTitle : String) :
    Except FmtErr (String × Option Nat × Option Nat) :=
  match detectAuto fileName.data parentDir.data with
  | none => .ok (fileName, none, none)
  | some (s, e) =>
    match dictGet allSeasonsInfo s with
    | none => .ok (fileName, none, none)
    | some seasonMap =>
      let episodeTitle := (dictGet seasonMap e).getD ""
      match tvRenderPart cfg seriesTitle s e episodeTitle with
      | .ok namePart => .ok (namePart ++ "." ++ lastExt fileName, some s, some e)
      | .error err => .error err

/-- The literal fallback movie name built by the except branch
(src/rtvsm.py:1492). -/
def movieCanonical (title year : String) : String :=
  if year = "" then title else title ++ " (" ++ year ++ ")"

/-- The year string computed by generate_movie_filename: the first four
characters of the release date, empty when no date (src/rtvsm.py:1477-1478). -/
def movieYear (releaseDate : String) : String :=
  if releaseDate = "" then "" else releaseDate.take 4

/-- TMDBRenamer.generate_movie_filename (src/rtvsm.py:1474-1498);
releaseDate is current_media_info.get with key release_date. -/
def generate_movie_filename (cfg : Config) (releaseDate fileName movieTitle : String) :
    Except FmtErr String :=
  let year := movieYear releaseDate
  match cfg.movieFormats.get? cfg.movieFormat with
  | none => .error .indexError
  | some fmt =>
    match formatMovie fmt movieTitle year with
    | .ok namePart => .ok (namePart ++ "." ++ lastExt fileName)
    | .error (.keyError _) => .ok (movieCanonical movieTitle year ++ "." ++ lastExt fileName)
    | .error e => .error e

/-! ## Preview update (src/rtvsm.py:1260-1304)

Only the data core is modelled: the computation of self.new_filenames from
self.files_to_rename. Widget population mirrors the same loop; the
by-season grouping view is display-only and omitted. A source file is
represented by the basename of its containing directory plus its own
basename, the only two components the generators read. -/

inductive MediaType
  | tv
  | movie
deriving DecidableEq

/-- The fields of current_media_info the core reads (TMDB keys name, title,
first_air_date, release_date; absent keys default to the empty string). -/
structure MediaInfo where
  name : String
  title : String
  firstAirDate : String
  releaseDate : String
deriving DecidableEq

/-- A source file: basename of its parent directory, and its own basename. -/
structure SrcPath where
  parent : String
  base : String
deriving DecidableEq

/-- The state read by update_preview. -/
structure PreviewInput where
  files : List SrcPath
  mediaInfo : Option MediaInfo
  mediaType : MediaType
  detectAllSeasons : Bool
  selectedSeason : Option Nat
deriving DecidableEq

/-- One loop iteration of update_preview: the new name appended for one
source file (src/rtvsm.py:1285-1303). -/
def previewOne (cfg : Config) (episodesInfo : List (Nat × String))
    (allSeasonsInfo : List (Nat × List (Nat × String)))
    (mediaType : MediaType) (detectAllSeasons : Bool) (selectedSeason : Option Nat)
    (mi : MediaInfo) (p : SrcPath) : Except FmtErr String :=
  match mediaType with
  | .tv =>
    if detectAllSeasons then
      match generate_tv_filename_auto_season cfg allSeasonsInfo p.parent p.base mi.name with
      | .ok r => .ok r.1
      | .error e => .error e
    else
      match selectedSeason with
      | none => .ok p.base
      | some sn =>
        match generate_tv_filename cfg episodesInfo p.base mi.name sn with
        | .ok r => .ok r.1
        | .error e => .error e
  | .movie => generate_movie_filename cfg mi.releaseDate p.base mi.title

/-- The preview loop over all files; an uncaught formatting exception in any
iteration propagates out of update_preview (so no full list is produced). -/
def renderAll (f : SrcPath → Except FmtErr String) : List SrcPath → Except FmtErr (List String)
  | [] => .ok []
  | p :: ps =>
    match f p with
    | .error e => .error e
    | .ok n =>
      match renderAll f ps with
      | .error e => .error e
      | .ok ns => .ok (n :: ns)

/-- TMDBRenamer.update_preview, restricted to its data result
self.new_filenames: cleared to the empty list, then left empty when there
are no files or no selected media, otherwise rebuilt with one rendered name
per source file in order. -/
def update_preview (cfg : Config) (episodesInfo : List (Nat × String))
    (allSeasonsInfo : List (Nat × List (Nat × String))) (inp : PreviewInput) :
    Except FmtErr (List String) :=
  match inp.files, inp.mediaInfo with
  | [], _ => .ok []
  | _ :: _, none => .ok []
  | _ :: _, some mi =>
    renderAll
      (previewOne cfg episodesInfo allSeasonsInfo inp.mediaType inp.detectAllSeasons
        inp.selectedSeason mi)
      inp.files

/-! ## Batch mover (src/rtvsm.py:1508-1690)

Filesystem paths are lists of components. The environment supplies: the
operator's answer to each successive conflict prompt, and for each directory
creation or move whether the call raises (with the exception message). The
state tracks existing files, existing directories, the success counter, the
error_files list and how many prompts have been shown. The progress bar,
poster download and summary dialogs are display-only and omitted. -/

abbrev FsPath := List String

inductive Resp
  | yes
  | no
  | yesToAll
  | noToAll
deriving DecidableEq

structure MoveEnv where
  mkdirErr : FsPath → Option String
  moveErr : FsPath → FsPath → Option String
  prompts : Nat → Resp

structure BatchState where
  fsFiles : List FsPath
  fsDirs : List FsPath
  successCount : Nat
  errorFiles : List String
  promptCount : Nat
deriving DecidableEq

/-- Render a path the way the error strings embed it. -/
def pathStr (p : FsPath) : String :=
  String.intercalate "/" p

/-- Append one error_files entry. -/
def addError (st : BatchState) (msg : String) : BatchState :=
  { st with errorFiles := st.errorFiles ++ [msg] }

/-- shutil.move followed by the bookkeeping: on an exception the error is
recorded (the per-file except branch, src/rtvsm.py:1626-1627), otherwise the
file now exists at the destination, no longer at the source, and
success_count is incremented (src/rtvsm.py:1624-1625). -/
def moveStep (env : MoveEnv) (st : BatchState) (old dst : FsPath) : BatchState :=
  match env.moveErr old dst with
  | some msg => addError st (pathStr old ++ " (" ++ msg ++ ")")
  | none =>
    { st with fsFiles := dst :: st.fsFiles.erase old,
              successCount := st.successCount + 1 }

/-- os.makedirs(dirname(new_path), exist_ok=True) then the move
(src/rtvsm.py:1620-1625); a makedirs exception is recorded per file. -/
def mkdirsThenMove (env : MoveEnv) (st : BatchState) (old dst : FsPath) : BatchState :=
  let parent := dst.dropLast
  if parent ∈ st.fsDirs then moveStep env st old dst
  else
    match env.mkdirErr parent with
    | some msg => addError st (pathStr old ++ " (" ++ msg ++ ")")
    | none => moveStep env { st with fsDirs := parent :: st.fsDirs } old dst

/-- Destination computation for one rendered name (src/rtvsm.py:1576-1606):
with season organization, the season number is re-parsed from the rendered
name with the case-sensitive S(digits)E(digits) search and the season folder
is created when missing (its creation may raise); otherwise the destination
is directly under the main folder. Returns the destination path and the
directory set after any season-folder creation. -/
def destStage (env : MoveEnv) (organizeSeasons : Bool) (mainPath : FsPath)
    (st : BatchState) (newName : String) : Except String (FsPath × List FsPath) :=
  if organizeSeasons then
    match searchSEupper newName.data with
    | some (s, _) =>
      let seasonDir := mainPath ++ ["Season " ++ pad2 s]
      if seasonDir ∈ st.fsDirs then .ok (seasonDir ++ [newName], st.fsDirs)
      else
        match env.mkdirErr seasonDir with
        | some msg => .error msg
        | none => .ok (seasonDir ++ [newName], seasonDir :: st.fsDirs)
    | none => .ok (mainPath ++ [newName], st.fsDirs)
  else .ok (mainPath ++ [newName], st.fsDirs)

/-- The conflict prompt followed by directory creation and the move
(src/rtvsm.py:1608-1625): an existing distinct destination triggers one
prompt, a No answer records the conflict failure and skips the file, any
other answer (Yes, YesToAll and also NoToAll, which the code does not
handle) proceeds with the move. -/
def conflictStage (env : MoveEnv) (st : BatchState) (old newPath : FsPath) : BatchState :=
  if newPath ∈ st.fsFiles ∧ old ≠ newPath then
    let resp := env.prompts st.promptCount
    let st2 := { st with promptCount := st.promptCount + 1 }
    if resp = .no then addError st2 (pathStr old ++ " (archivo destino ya existe)")
    else mkdirsThenMove env st2 old newPath
  else mkdirsThenMove env st old newPath

/-- One iteration of the rename loop for (old_path, new_name)
(src/rtvsm.py:1571-1629): destination computation with optional season-folder
routing re-parsed from the rendered name, the conflict prompt, intermediate
directory creation and the move, all exceptions caught per file. -/
def processFile (env : MoveEnv) (organizeSeasons : Bool) (mainPath : FsPath)
    (st : BatchState) (old : FsPath) (newName : String) : BatchState :=
  match destStage env organizeSeasons mainPath st newName with
  | .error msg => addError st (pathStr old ++ " (" ++ msg ++ ")")
  | .ok (newPath, dirs1) => conflictStage env { st with fsDirs := dirs1 } old newPath

/-- The rename loop over the zipped (files_to_rename, new_filenames) pairs. -/
def runBatch (env : MoveEnv) (organizeSeasons : Bool) (mainPath : FsPath) :
    BatchState → List (FsPath × String) → BatchState
  | st, [] => st
  | st, (old, n) :: rest => runBatch env organizeSeasons mainPath (processFile env organizeSeasons mainPath st old n) rest

/-- The inputs rename_files reads from the window state
(src/rtvsm.py:1508-1545). -/
structure RenameConfig where
  organizeSeasonsChecked : Bool
  mediaType : MediaType
  cfgOrganizeMovies : Bool
  baseDirectory : Option FsPath
  mediaTitle : String
  airDate : String
deriving DecidableEq

/-- main_folder_name = title plus the parenthesised first four date
characters when a date is present (src/rtvsm.py:1531-1541). -/
def mainFolderName (title date : String) : String :=
  title ++ (if date = "" then "" else " (" ++ date.take 4 ++ ")")

/-- Outcome of a rename_files call. -/
inductive RenameOutcome
  | notRun
  | abortedMainDir (msg : String)
  | completed (st : BatchState)
deriving DecidableEq

/-- TMDBRenamer.rename_files (src/rtvsm.py:1508-1690), data core: the early
return on empty lists, the main-folder computation and its guarded creation
(whose failure shows an error dialog and returns, running no moves), then
the per-file loop. Poster download, the progress bar and the summary
dialogs are display-only and omitted. -/
def rename_files (env : MoveEnv) (rc : RenameConfig) (initFiles initDirs : List FsPath)
    (files : List FsPath) (newNames : List String) : RenameOutcome :=
  match files, newNames with
  | [], _ => .notRun
  | _ :: _, [] => .notRun
  | f0 :: fs, n0 :: ns =>
    let organizeSeasons := rc.organizeSeasonsChecked ∧ rc.mediaType = .tv
    let organizeMovies := rc.cfgOrganizeMovies ∧ rc.mediaType = .movie
    let rootDirectory :=
      match rc.baseDirectory with
      | some b => b
      | none => f0.dropLast
    let ops := (f0 :: fs).zip (n0 :: ns)
    let mfn := mainFolderName rc.mediaTitle rc.airDate
    if rc.baseDirectory.isSome ∨ organizeMovies then
      let mainPath := rootDirectory ++ [mfn]
      if mainPath ∈ initDirs then
        .completed (runBatch env (decide organizeSeasons) mainPath
          ⟨initFiles, initDirs, 0, [], 0⟩ ops)
      else
        match env.mkdirErr mainPath with
        | some msg => .abortedMainDir msg
        | none =>
          .completed (runBatch env (decide organizeSeasons) mainPath
            ⟨initFiles, mainPath :: initDirs, 0, [], 0⟩ ops)
    else
      .completed (runBatch env (decide organizeSeasons) rootDirectory
        ⟨initFiles, initDirs, 0, [], 0⟩ ops)

/-- The final summary split (src/rtvsm.py:1672-1690): every file moved means
the completion dialog, otherwise the warning dialog with the itemized
error_files list. -/
inductive BatchResult
  | complete (successCount : Nat)
  | partialFailure (successCount : Nat) (failures : List String)
deriving DecidableEq

def classify (total : Nat) (st : BatchState) : BatchResult :=
  if st.successCount = total then .complete st.successCount
  else .partialFailure st.successCount st.errorFiles

/-- The destination path the loop computes for one rendered name
(src/rtvsm.py:1577-1606), written as a standalone function of the main
folder, the organize flag and the rendered name alone. -/
def plannedDest (mainPath : FsPath) (organizeSeasons : Bool) (newName : String) : FsPath :=
  if organizeSeasons then
    match searchSEupper newName.data with
    | some (s, _) => mainPath ++ ["Season " ++ pad2 s, newName]
    | none => mainPath ++ [newName]
  else mainPath ++ [newName]

/-- Which primitive a move uses. -/
inductive MovePrimitive
  | renamePrim
  | copyDelete
deriving DecidableEq

/-- Modelled from the documented behavior of Python's shutil.move, called at
src/rtvsm.py:1624 (the source comment there says shutil.move is used instead
of os.rename to allow moves across devices/partitions): when source and
destination are on the same filesystem the file is renamed with os.rename,
otherwise it is copied to the destination and the original is deleted. -/
def shutilMoveStrategy (sameFilesystem : Bool) : MovePrimitive :=
  if sameFilesystem then .renamePrim else .copyDelete

/-! ## Claims -/

/-- Claim C1 counterexample: in single-season mode a filename with no
digits at all defeats every cascade rule, and the rendered name is then the
placeholder form, not the original filename. -/
theorem single_mode_failure_not_original :
    extractEpisodeSingle "randomfile.mkv".data = none ∧
    generate_tv_filename defaultConfig [] "randomfile.mkv" "Show" 2 =
      .ok ("Show S02EXX.mkv", none) ∧
    ("Show S02EXX.mkv" : String) ≠ "randomfile.mkv" := by decide

/-- Claim C1 (amended): on detection failure, auto-detect mode keeps the
original filename, while single-season mode renders the placeholder name
title S(season)EXX with the original extension. -/
theorem detection_failure_rendering (cfg : Config) (episodesInfo : List (Nat × String))
    (allSeasonsInfo : List (Nat × List (Nat × String)))
    (parentDir fileName seriesTitle : String) (seasonNumber : Nat) :
    (detectAuto fileName.data parentDir.data = none →
      generate_tv_filename_auto_season cfg allSeasonsInfo parentDir fileName seriesTitle =
        .ok (fileName, none, none)) ∧
    (extractEpisodeSingle fileName.data = none →
      generate_tv_filename cfg episodesInfo fileName seriesTitle seasonNumber =
        .ok (seriesTitle ++ " S" ++ pad2 seasonNumber ++ "EXX." ++ lastExt fileName, none)) := by
  constructor
  · intro h
    simp [generate_tv_filename_auto_season, h]
  · intro h
    simp [generate_tv_filename, h]

/-- Claim C1 (amended) witness at a digit-free filename. -/
theorem detection_failure_rendering_witness :
    detectAuto "randomfile.mkv".data "stuff".data = none ∧
    extractEpisodeSingle "randomfile.mkv".data = none ∧
    generate_tv_filename_auto_season defaultConfig [] "stuff" "randomfile.mkv" "Show" =
      .ok ("randomfile.mkv", none, none) ∧
    generate_tv_filename defaultConfig [] "randomfile.mkv" "Show" 2 =
      .ok ("Show" ++ " S" ++ pad2 2 ++ "EXX." ++ lastExt "randomfile.mkv", none) :=
  ⟨by decide, by decide,
   (detection_failure_rendering defaultConfig [] [] "stuff" "randomfile.mkv" "Show" 2).1
     (by decide),
   (detection_failure_rendering defaultConfig [] [] "stuff" "randomfile.mkv" "Show" 2).2
     (by decide)⟩

/-- Claim C5: in auto-detect mode, a parsed season that is not a key of the
known-seasons map is a full detection failure; the original filename is
returned with (none, none). -/
theorem auto_season_gate (cfg : Config) (allSeasonsInfo : List (Nat × List (Nat × String)))
    (parentDir fileName seriesTitle : String) (s e : Nat)
    (hdet : detectAuto fileName.data parentDir.data = some (s, e))
    (hmiss : dictGet allSeasonsInfo s = none) :
    generate_tv_filename_auto_season cfg allSeasonsInfo parentDir fileName seriesTitle =
      .ok (fileName, none, none) := by
  simp [generate_tv_filename_auto_season, hdet, hmiss]

/-- Claim C5 witness: season 3 parses from the filename but the known-seasons
map is empty, so the file keeps its original name. -/
theorem auto_season_gate_witness :
    detectAuto "Show.S03E07.mkv".data "dir".data = some (3, 7) ∧
    dictGet ([] : List (Nat × List (Nat × String))) 3 = none ∧
    generate_tv_filename_auto_season defaultConfig [] "dir" "Show.S03E07.mkv" "Show" =
      .ok ("Show.S03E07.mkv", none, none) :=
  ⟨by decide, by decide,
   auto_season_gate defaultConfig [] "dir" "Show.S03E07.mkv" "Show" 3 7 (by decide) (by decide)⟩

/-- Claim C10: once the parsed season is a known-seasons key, the parsed
episode is not validated against that season's episode map: a missing
episode key is not a failure, and the name is rendered through the normal
template path with the detected numbers and an empty episode title. -/
theorem auto_episode_unvalidated (cfg : Config)
    (allSeasonsInfo : List (Nat × List (Nat × String)))
    (parentDir fileName seriesTitle : String) (s e : Nat)
    (seasonMap : List (Nat × String))
    (hdet : detectAuto fileName.data parentDir.data = some (s, e))
    (hs : dictGet allSeasonsInfo s = some seasonMap)
    (he : dictGet seasonMap e = none) :
    generate_tv_filename_auto_season cfg allSeasonsInfo parentDir fileName seriesTitle =
      match tvRenderPart cfg seriesTitle s e "" with
      | .ok namePart => .ok (namePart ++ "." ++ lastExt fileName, some s, some e)
      | .error err => .error err := by
  simp [generate_tv_filename_auto_season, hdet, hs, he]

/-- Claim C10 witness: episode 2 is absent from season 1's map, yet the name
is fully rendered with S01E02 and no episode title. -/
theorem auto_episode_unvalidated_witness :
    detectAuto "Show.S01E02.mkv".data "dir".data = some (1, 2) ∧
    dictGet [(1, ([] : List (Nat × String)))] 1 = some [] ∧
    dictGet ([] : List (Nat × String)) 2 = none ∧
    generate_tv_filename_auto_season defaultConfig [(1, [])] "dir" "Show.S01E02.mkv" "Show" =
      (match tvRenderPart defaultConfig "Show" 1 2 "" with
       | .ok namePart => .ok (namePart ++ "." ++ lastExt "Show.S01E02.mkv", some 1, some 2)
       | .error err => .error err) ∧
    generate_tv_filename_auto_season defaultConfig [(1, [])] "dir" "Show.S01E02.mkv" "Show" =
      .ok ("Show S01E02.mkv", some 1, some 2) :=
  ⟨by decide, by decide, by decide,
   auto_episode_unvalidated defaultConfig [(1, [])] "dir" "Show.S01E02.mkv" "Show" 1 2 []
     (by decide) (by decide) (by decide), by decide⟩

/-- Claim C7 counterexample: a template consisting of a single opening brace
makes substitution fail with a ValueError, which the renderer does not
catch; rendering raises instead of falling back, for TV and movie alike. -/
theorem malformed_template_raises :
    generate_tv_filename { defaultConfig with tvFormats := ["\x7b"] } []
      "Show.S01E02.mkv" "Show" 1 = .error .valueError ∧
    generate_movie_filename { defaultConfig with movieFormats := ["\x7b"] }
      "2001-01-01" "m.avi" "Movie" = .error .valueError := by decide

/-- Claim C7 (amended): the renderer falls back to the canonical form
exactly when substitution fails with a KeyError (an unknown placeholder
name), and succeeds transparently when substitution succeeds; substitution
failures of any other class (malformed template, positional field,
invalid spec) propagate as exceptions. -/
theorem render_fallback_on_keyerror (cfg : Config) (fmtTv fmtMv title : String)
    (season episode : Nat) (episodeTitle releaseDate fileName : String)
    (htv : cfg.tvFormats[cfg.tvFormat]? = some fmtTv)
    (hmv : cfg.movieFormats[cfg.movieFormat]? = some fmtMv) :
    (∀ k, formatTv fmtTv title season episode episodeTitle = .error (.keyError k) →
      tvRenderPart cfg title season episode episodeTitle =
        .ok (tvCanonical title season episode episodeTitle)) ∧
    (∀ out, formatTv fmtTv title season episode episodeTitle = .ok out →
      tvRenderPart cfg title season episode episodeTitle = .ok out) ∧
    (∀ e, formatTv fmtTv title season episode episodeTitle = .error e →
      (∀ k, e ≠ .keyError k) →
      tvRenderPart cfg title season episode episodeTitle = .error e) ∧
    (∀ k, formatMovie fmtMv title (movieYear releaseDate) = .error (.keyError k) →
      generate_movie_filename cfg releaseDate fileName title =
        .ok (movieCanonical title (movieYear releaseDate) ++ "." ++ lastExt fileName)) ∧
    (∀ out, formatMovie fmtMv title (movieYear releaseDate) = .ok out →
      generate_movie_filename cfg releaseDate fileName title =
        .ok (out ++ "." ++ lastExt fileName)) := by
  refine ⟨?_, ?_, ?_, ?_, ?_⟩
  · intro k h
    simp [tvRenderPart, htv, h]
  · intro out h
    simp [tvRenderPart, htv, h]
  · intro e h hk
    cases e with
    | keyError k => exact absurd rfl (hk k)
    | indexError => simp [tvRenderPart, htv, h]
    | valueError => simp [tvRenderPart, htv, h]
    | otherError => simp [tvRenderPart, htv, h]
  · intro k h
    simp [generate_movie_filename, hmv, h]
  · intro out h
    simp [generate_movie_filename, hmv, h]

/-- Claim C7 (amended) witness: an unknown placeholder name produces a
KeyError and the canonical fallback is rendered. -/
theorem render_fallback_on_keyerror_witness :
    formatTv "\x7bfoo\x7d" "Show" 1 2 "" = .error (.keyError "foo") ∧
    tvRenderPart { defaultConfig with tvFormats := ["\x7bfoo\x7d"] } "Show" 1 2 "" =
      .ok (tvCanonical "Show" 1 2 "") ∧
    formatMovie "\x7bbar\x7d" "Movie" (movieYear "2001-01-01") = .error (.keyError "bar") ∧
    generate_movie_filename { defaultConfig with movieFormats := ["\x7bbar\x7d"] }
      "2001-01-01" "m.avi" "Movie" =
      .ok (movieCanonical "Movie" (movieYear "2001-01-01") ++ "." ++ lastExt "m.avi") :=
  ⟨by decide,
   (render_fallback_on_keyerror { defaultConfig with tvFormats := ["\x7bfoo\x7d"] }
      "\x7bfoo\x7d" "\x7btitle\x7d (\x7byear\x7d)" "Show" 1 2 "" "2001-01-01" "m.avi"
      (by decide) (by decide)).1 "foo" (by decide),
   by decide,
   ((render_fallback_on_keyerror { defaultConfig with movieFormats := ["\x7bbar\x7d"] }
      "\x7btitle\x7d S\x7bseason:02d\x7dE\x7bepisode:02d\x7d" "\x7bbar\x7d" "Movie" 1 2 ""
      "2001-01-01" "m.avi" (by decide) (by decide)).2.2.2.1) "bar" (by decide)⟩

/-- Claim C8: the single-season extraction is the documented five-rule
ordered cascade with first match winning: for each rule, whenever every
earlier rule fails to match and the rule matches, the extraction is that
rule's episode capture, and when the first four fail the extraction is the
last-resort first digit run. -/
theorem single_mode_cascade_order (cs : List Char) :
    (∀ s e, searchSE cs = some (s, e) → extractEpisodeSingle cs = some e) ∧
    (searchSE cs = none → ∀ s e, searchNx cs = some (s, e) →
      extractEpisodeSingle cs = some e) ∧
    (searchSE cs = none → searchNx cs = none → ∀ e, searchE cs = some e →
      extractEpisodeSingle cs = some e) ∧
    (searchSE cs = none → searchNx cs = none → searchE cs = none →
      ∀ e, searchEpisodeWord cs = some e → extractEpisodeSingle cs = some e) ∧
    (searchSE cs = none → searchNx cs = none → searchE cs = none →
      searchEpisodeWord cs = none → extractEpisodeSingle cs = firstDigitRun cs) := by
  refine ⟨?_, ?_, ?_, ?_, ?_⟩
  · intro s e h
    simp [extractEpisodeSingle, h]
  · intro h1 s e h
    simp [extractEpisodeSingle, h1, h]
  · intro h1 h2 e h
    simp [extractEpisodeSingle, h1, h2, h]
  · intro h1 h2 h3 e h
    simp [extractEpisodeSingle, h1, h2, h3, h]
  · intro h1 h2 h3 h4
    simp [extractEpisodeSingle, h1, h2, h3, h4]

/-- Claim C8 witness: "2x09" matches only the second rule (with "1080p" also
matching the last-resort rule), and the cascade resolves episode 9 via the
earlier rule. -/
theorem single_mode_cascade_order_witness :
    searchSE "Show 2x09 1080p.mkv".data = none ∧
    searchNx "Show 2x09 1080p.mkv".data = some (2, 9) ∧
    firstDigitRun "Show 2x09 1080p.mkv".data = some 2 ∧
    extractEpisodeSingle "Show 2x09 1080p.mkv".data = some 9 :=
  ⟨by decide, by decide, by decide,
   (single_mode_cascade_order "Show 2x09 1080p.mkv".data).2.1 (by decide) 2 9 (by decide)⟩

/-- Claim C9 counterexample: with files queued but no media selected, the
preview update leaves the rendered list empty while the source list is
non-empty, so the two lists do not have equal length. -/
theorem preview_lists_mismatch_no_media :
    update_preview defaultConfig [] [] ⟨[⟨"d", "a.mkv"⟩], none, .tv, false, none⟩ = .ok [] ∧
    ([] : List String).length ≠ ([⟨"d", "a.mkv"⟩] : List SrcPath).length := by decide

/-- Index-wise specification of the preview loop: a successful renderAll
returns one rendered name per source file, in order. -/
theorem renderAll_ok_spec (f : SrcPath → Except FmtErr String) :
    ∀ (ps : List SrcPath) (ns : List String), renderAll f ps = .ok ns →
      ns.length = ps.length ∧
      ∀ i (h1 : i < ns.length) (h2 : i < ps.length),
        f (ps.get ⟨i, h2⟩) = .ok (ns.get ⟨i, h1⟩) := by
  intro ps
  induction ps with
  | nil =>
    intro ns h
    simp [renderAll] at h
    subst h
    exact ⟨rfl, fun i h1 h2 => absurd h1 (by simp)⟩
  | cons p ps ih =>
    intro ns h
    simp only [renderAll] at h
    cases hf : f p with
    | error e => rw [hf] at h; cases h
    | ok n =>
      rw [hf] at h
      cases hr : renderAll f ps with
      | error e => rw [hr] at h; cases h
      | ok ms =>
        rw [hr] at h
        cases h
        obtain ⟨hlen, hidx⟩ := ih ms hr
        refine ⟨by simp [hlen], ?_⟩
        intro i h1 h2
        cases i with
        | zero => simpa using hf
        | succ j =>
          have h1j : j < ms.length := by simpa using h1
          have h2j : j < ps.length := by simpa using h2
          simpa using hidx j h1j h2j

/-- Claim C9 (amended): after a preview update that has a selected media
identity and renders every file without an exception, the rendered list and
the source list have equal length and matching order, the i-th rendered
name being the one generated from the i-th source file. -/
theorem preview_alignment (cfg : Config) (episodesInfo : List (Nat × String))
    (allSeasonsInfo : List (Nat × List (Nat × String)))
    (inp : PreviewInput) (mi : MediaInfo) (names : List String)
    (hmi : inp.mediaInfo = some mi)
    (hok : update_preview cfg episodesInfo allSeasonsInfo inp = .ok names) :
    names.length = inp.files.length ∧
    ∀ i (h1 : i < names.length) (h2 : i < inp.files.length),
      previewOne cfg episodesInfo allSeasonsInfo inp.mediaType inp.detectAllSeasons
        inp.selectedSeason mi (inp.files.get ⟨i, h2⟩) = .ok (names.get ⟨i, h1⟩) := by
  obtain ⟨files, minfo, mtype, hdet, hsel⟩ := inp
  simp only at hmi
  subst hmi
  cases files with
  | nil =>
    simp only [update_preview] at hok
    cases hok
    exact ⟨rfl, fun i h1 h2 => absurd h2 (by simp)⟩
  | cons p ps =>
    simp only [update_preview] at hok
    exact renderAll_ok_spec _ (p :: ps) names hok

/-- Claim C9 (amended) witness at a one-file preview with a selected medium. -/
theorem preview_alignment_witness :
    update_preview defaultConfig [] []
      ⟨[⟨"d", "x.mkv"⟩], some ⟨"Show", "", "", ""⟩, .tv, false, none⟩ = .ok ["x.mkv"] ∧
    (["x.mkv"] : List String).length =
      (PreviewInput.files ⟨[⟨"d", "x.mkv"⟩], some ⟨"Show", "", "", ""⟩, .tv, false, none⟩).length :=
  ⟨by decide,
   (preview_alignment defaultConfig [] []
      ⟨[⟨"d", "x.mkv"⟩], some ⟨"Show", "", "", ""⟩, .tv, false, none⟩
      ⟨"Show", "", "", ""⟩ ["x.mkv"] rfl (by decide)).1⟩

/-- Claim C2 evaluation at the failing input: two files whose destinations
both already exist, operator answer NoToAll at the first prompt. The code
compares the response only against No, so NoToAll falls through to the
move: both destination files are overwritten, success_count reaches the
total, no failure is recorded, and the operator is prompted again for the
second conflict (the all-remaining decision is not sticky). -/
theorem no_to_all_overwrites_eval :
    rename_files ⟨fun _ => none, fun _ _ => none, fun _ => .noToAll⟩
      ⟨false, .tv, false, none, "Show", ""⟩
      [["d", "a.mkv"], ["d", "b.mkv"], ["d", "A.mkv"], ["d", "B.mkv"]] [["d"]]
      [["d", "a.mkv"], ["d", "b.mkv"]] ["A.mkv", "B.mkv"] =
      .completed ⟨[["d", "B.mkv"], ["d", "A.mkv"], ["d", "A.mkv"], ["d", "B.mkv"]],
        [["d"]], 2, [], 2⟩ ∧
    classify 2 ⟨[["d", "B.mkv"], ["d", "A.mkv"], ["d", "A.mkv"], ["d", "B.mkv"]],
      [["d"]], 2, [], 2⟩ = .complete 2 := by decide

/-- Claim C3 counterexample: on one filesystem shutil.move uses the rename
primitive, so the program's moves are not always copy-then-delete. -/
theorem same_fs_move_uses_rename :
    shutilMoveStrategy true = .renamePrim ∧ shutilMoveStrategy true ≠ .copyDelete := by decide

/-- Claim C3 (amended): moves go through shutil.move, which copies and
deletes across filesystems, and the batch mover's move step succeeds
independently of any device boundary: whenever the move call itself does not
raise, the step counts a success, records no failure, and the file exists at
the destination. -/
theorem cross_device_move_succeeds (env : MoveEnv) (st : BatchState) (old dst : FsPath)
    (hmv : env.moveErr old dst = none) :
    shutilMoveStrategy false = .copyDelete ∧
    (moveStep env st old dst).successCount = st.successCount + 1 ∧
    (moveStep env st old dst).errorFiles = st.errorFiles ∧
    dst ∈ (moveStep env st old dst).fsFiles := by
  refine ⟨rfl, ?_, ?_, ?_⟩ <;> simp [moveStep, hmv]

/-- Claim C3 (amended) witness: a move whose source and destination lie
under different storage roots succeeds. -/
theorem cross_device_move_succeeds_witness :
    shutilMoveStrategy false = .copyDelete ∧
    (moveStep ⟨fun _ => none, fun _ _ => none, fun _ => .yes⟩
      ⟨[["volA", "f.mkv"]], [], 0, [], 0⟩ ["volA", "f.mkv"] ["volB", "f.mkv"]).successCount = 1 :=
  ⟨(cross_device_move_succeeds ⟨fun _ => none, fun _ _ => none, fun _ => .yes⟩
      ⟨[["volA", "f.mkv"]], [], 0, [], 0⟩ ["volA", "f.mkv"] ["volB", "f.mkv"] rfl).1,
   (cross_device_move_succeeds ⟨fun _ => none, fun _ _ => none, fun _ => .yes⟩
      ⟨[["volA", "f.mkv"]], [], 0, [], 0⟩ ["volA", "f.mkv"] ["volB", "f.mkv"] rfl).2.1⟩

/-- Each move step ends in exactly one disposition: success or one recorded
failure. -/
theorem moveStep_disposition (env : MoveEnv) (st : BatchState) (old dst : FsPath) :
    (moveStep env st old dst).successCount + (moveStep env st old dst).errorFiles.length =
      st.successCount + st.errorFiles.length + 1 := by
  unfold moveStep
  cases env.moveErr old dst <;> simp [addError] <;> omega

/-- Directory creation plus move ends in exactly one disposition. -/
theorem mkdirsThenMove_disposition (env : MoveEnv) (st : BatchState) (old dst : FsPath) :
    (mkdirsThenMove env st old dst).successCount +
      (mkdirsThenMove env st old dst).errorFiles.length =
      st.successCount + st.errorFiles.length + 1 := by
  unfold mkdirsThenMove
  by_cases hp : dst.dropLast ∈ st.fsDirs
  · simp only [if_pos hp]
    exact moveStep_disposition env st old dst
  · simp only [if_neg hp]
    cases h : env.mkdirErr dst.dropLast with
    | some msg => simp [addError]; omega
    | none => exact moveStep_disposition env { st with fsDirs := dst.dropLast :: st.fsDirs } old dst

/-- The conflict stage ends in exactly one disposition. -/
theorem conflictStage_disposition (env : MoveEnv) (st : BatchState) (old newPath : FsPath) :
    (conflictStage env st old newPath).successCount +
      (conflictStage env st old newPath).errorFiles.length =
      st.successCount + st.errorFiles.length + 1 := by
  simp only [conflictStage]
  split
  · split
    · simp [addError]; omega
    · exact mkdirsThenMove_disposition env _ old _
  · exact mkdirsThenMove_disposition env _ old _

/-- One loop iteration ends in exactly one disposition, whatever branch is
taken: season-directory failure, conflict skip, intermediate-directory
failure, move failure or success. -/
theorem processFile_disposition (env : MoveEnv) (org : Bool) (mainPath : FsPath)
    (st : BatchState) (old : FsPath) (n : String) :
    (processFile env org mainPath st old n).successCount +
      (processFile env org mainPath st old n).errorFiles.length =
      st.successCount + st.errorFiles.length + 1 := by
  simp only [processFile]
  split
  · simp [addError]; omega
  · exact conflictStage_disposition env _ old _

/-- The loop gives every operation exactly one disposition. -/
theorem runBatch_disposition (env : MoveEnv) (org : Bool) (mainPath : FsPath) :
    ∀ (ops : List (FsPath × String)) (st : BatchState),
      (runBatch env org mainPath st ops).successCount +
        (runBatch env org mainPath st ops).errorFiles.length =
        st.successCount + st.errorFiles.length + ops.length := by
  intro ops
  induction ops with
  | nil => intro st; simp [runBatch]
  | cons op rest ih =>
    intro st
    obtain ⟨old, n⟩ := op
    simp only [runBatch]
    rw [ih]
    have := processFile_disposition env org mainPath st old n
    simp only [List.length_cons]
    omega

/-- Claim C4 counterexample: when a base directory is configured and
creating the main folder raises, rename_files shows an error and returns:
the batch is aborted before any per-file operation is attempted, and no
per-file disposition list is produced. -/
theorem main_dir_failure_aborts_batch :
    rename_files ⟨fun _ => some "boom", fun _ _ => none, fun _ => .yes⟩
      ⟨false, .tv, false, some ["base"], "Show", ""⟩ [] [] [["d", "a.mkv"]] ["A.mkv"] =
      .abortedMainDir "boom" := by decide

/-- Claim C4 (amended): once the per-file loop is reached (the guarded
main-folder creation did not abort), every zipped operation receives exactly
one disposition - the loop catches per-file exceptions and never stops
early - and the final summary is the completion dialog exactly when
success_count equals the file count, otherwise the warning dialog with the
itemized failure list. -/
theorem batch_per_file_disposition (env : MoveEnv) (rc : RenameConfig)
    (initFiles initDirs : List FsPath) (files : List FsPath) (newNames : List String)
    (st : BatchState)
    (hrun : rename_files env rc initFiles initDirs files newNames = .completed st) :
    st.successCount + st.errorFiles.length = (files.zip newNames).length ∧
    (st.successCount = files.length → classify files.length st = .complete st.successCount) ∧
    (st.successCount ≠ files.length →
      classify files.length st = .partialFailure st.successCount st.errorFiles) := by
  refine ⟨?_, fun h => by simp [classify, h], fun h => by simp [classify, h]⟩
  cases files with
  | nil => simp [rename_files] at hrun
  | cons f0 fs =>
    cases newNames with
    | nil => simp [rename_files] at hrun
    | cons n0 ns =>
      simp only [rename_files] at hrun
      split at hrun
      · split at hrun
        · cases hrun
          simpa using runBatch_disposition env _ _ ((f0 :: fs).zip (n0 :: ns))
            ⟨initFiles, initDirs, 0, [], 0⟩
        · split at hrun
          · cases hrun
          · cases hrun
            simpa using runBatch_disposition env _ _ ((f0 :: fs).zip (n0 :: ns))
              ⟨initFiles, _, 0, [], 0⟩
      · cases hrun
        simpa using runBatch_disposition env _ _ ((f0 :: fs).zip (n0 :: ns))
          ⟨initFiles, initDirs, 0, [], 0⟩

/-- Claim C4 (amended) witness: a completed one-file batch with one success
and no failures. -/
theorem batch_per_file_disposition_witness :
    rename_files ⟨fun _ => none, fun _ _ => none, fun _ => .yes⟩
      ⟨false, .tv, false, none, "Show", ""⟩ [["d", "a.mkv"]] [["d"]]
      [["d", "a.mkv"]] ["A.mkv"] = .completed ⟨[["d", "A.mkv"]], [["d"]], 1, [], 0⟩ ∧
    (1 : Nat) + ([] : List String).length =
      (([["d", "a.mkv"]] : List FsPath).zip ["A.mkv"]).length :=
  ⟨by decide,
   (batch_per_file_disposition ⟨fun _ => none, fun _ _ => none, fun _ => .yes⟩
      ⟨false, .tv, false, none, "Show", ""⟩ [["d", "a.mkv"]] [["d"]]
      [["d", "a.mkv"]] ["A.mkv"] ⟨[["d", "A.mkv"]], [["d"]], 1, [], 0⟩ (by decide)).1⟩

/-- On a clean filesystem step (no directory or move exception), the moved
file lands exactly at the destination. -/
theorem mkdirsThenMove_clean (env : MoveEnv) (st : BatchState) (old dst : FsPath)
    (hmk : ∀ p, env.mkdirErr p = none) (hmv : env.moveErr old dst = none) :
    (mkdirsThenMove env st old dst).fsFiles = dst :: st.fsFiles.erase old ∧
    (mkdirsThenMove env st old dst).successCount = st.successCount + 1 ∧
    (mkdirsThenMove env st old dst).errorFiles = st.errorFiles := by
  unfold mkdirsThenMove moveStep
  by_cases hp : dst.dropLast ∈ st.fsDirs
  · simp [hp, hmv]
  · simp [hp, hmk, hmv]

/-- On a conflict-free clean step the conflict stage moves the file without
prompting. -/
theorem conflictStage_clean (env : MoveEnv) (st : BatchState) (old newPath : FsPath)
    (hnc : newPath ∉ st.fsFiles)
    (hmk : ∀ p, env.mkdirErr p = none) (hmv : env.moveErr old newPath = none) :
    (conflictStage env st old newPath).fsFiles = newPath :: st.fsFiles.erase old ∧
    (conflictStage env st old newPath).successCount = st.successCount + 1 ∧
    (conflictStage env st old newPath).errorFiles = st.errorFiles := by
  unfold conflictStage
  rw [if_neg (fun hc => hnc hc.1)]
  exact mkdirsThenMove_clean env st old newPath hmk hmv

/-- When no directory-creation exception occurs, the destination stage
yields exactly the planned destination. -/
theorem destStage_planned (env : MoveEnv) (mainPath : FsPath) (st : BatchState)
    (newName : String) (hmk : ∀ p, env.mkdirErr p = none) :
    ∃ dirs1, destStage env true mainPath st newName =
      .ok (plannedDest mainPath true newName, dirs1) := by
  cases h : searchSEupper newName.data with
  | none => exact ⟨st.fsDirs, by simp [destStage, plannedDest, h]⟩
  | some se =>
    obtain ⟨s, e⟩ := se
    by_cases hd : mainPath ++ ["Season " ++ pad2 s] ∈ st.fsDirs
    · exact ⟨st.fsDirs, by simp [destStage, plannedDest, h, hd]⟩
    · exact ⟨(mainPath ++ ["Season " ++ pad2 s]) :: st.fsDirs,
        by simp [destStage, plannedDest, h, hd, hmk]⟩

/-- Claim C6: with organizeSeasons set, the per-file destination is a
function of the rendered name alone (detection's season value is not an
input): when the case-sensitive S(season)E(episode) search succeeds on the
rendered name, the file is placed in MAIN/"Season NN"/renderedName with NN
re-parsed from the rendered name, and otherwise directly in
MAIN/renderedName; on a clean conflict-free step the file really lands at
that destination, counted as a success. -/
theorem season_folder_placement (env : MoveEnv) (mainPath : FsPath) (st : BatchState)
    (old : FsPath) (newName : String)
    (hmk : ∀ p, env.mkdirErr p = none)
    (hnc : plannedDest mainPath true newName ∉ st.fsFiles)
    (hmv : env.moveErr old (plannedDest mainPath true newName) = none) :
    ((∀ s e, searchSEupper newName.data = some (s, e) →
        plannedDest mainPath true newName = mainPath ++ ["Season " ++ pad2 s, newName]) ∧
     (searchSEupper newName.data = none →
        plannedDest mainPath true newName = mainPath ++ [newName])) ∧
    (processFile env true mainPath st old newName).fsFiles =
      plannedDest mainPath true newName :: st.fsFiles.erase old ∧
    (processFile env true mainPath st old newName).successCount = st.successCount + 1 ∧
    (processFile env true mainPath st old newName).errorFiles = st.errorFiles := by
  obtain ⟨dirs1, hds⟩ := destStage_planned env mainPath st newName hmk
  have hstep : processFile env true mainPath st old newName =
      conflictStage env { st with fsDirs := dirs1 } old (plannedDest mainPath true newName) := by
    unfold processFile
    rw [hds]
  have hclean := conflictStage_clean env { st with fsDirs := dirs1 } old
    (plannedDest mainPath true newName) hnc hmk hmv
  refine ⟨⟨?_, ?_⟩, ?_, ?_, ?_⟩
  · intro s e hse
    simp [plannedDest, hse]
  · intro hn
    simp [plannedDest, hn]
  · rw [hstep]; exact hclean.1
  · rw [hstep]; exact hclean.2.1
  · rw [hstep]; exact hclean.2.2

/-- Claim C6 witness: the rendered name "Show S02E05.mkv" is routed into the
"Season 02" folder under the main path, and the step succeeds. -/
theorem season_folder_placement_witness :
    plannedDest ["m"] true "Show S02E05.mkv" = ["m", "Season " ++ pad2 2, "Show S02E05.mkv"] ∧
    (processFile ⟨fun _ => none, fun _ _ => none, fun _ => .yes⟩ true ["m"]
      ⟨[["s", "old.mkv"]], [["m"]], 0, [], 0⟩ ["s", "old.mkv"] "Show S02E05.mkv").fsFiles =
      plannedDest ["m"] true "Show S02E05.mkv" ::
        ([["s", "old.mkv"]] : List FsPath).erase ["s", "old.mkv"] :=
  ⟨(season_folder_placement ⟨fun _ => none, fun _ _ => none, fun _ => .yes⟩ ["m"]
      ⟨[["s", "old.mkv"]], [["m"]], 0, [], 0⟩ ["s", "old.mkv"] "Show S02E05.mkv"
      (fun _ => rfl) (by decide) rfl).1.1 2 5 (by decide),
   (season_folder_placement ⟨fun _ => none, fun _ _ => none, fun _ => .yes⟩ ["m"]
      ⟨[["s", "old.mkv"]], [["m"]], 0, [], 0⟩ ["s", "old.mkv"] "Show S02E05.mkv"
      (fun _ => rfl) (by decide) rfl).2.1⟩
